import Mathlib

/-!
Shallow embedding of `convert_tracklist.py` (tracklists-converter).

Modelling conventions:
* Python values that flow through the track dictionaries are modelled by
  `PyVal` (`None`, `str`, `int` are the only value shapes the script puts
  in those dictionaries).
* A Python `dict` is an insertion-ordered association list; `d[k] = v`
  updates the value in place when the key exists and appends otherwise
  (`dictSet`), and `d[k]` / `d.get` are `dictFind?`.
* A Python exception (`ValueError`, `KeyError`, `TypeError`,
  `AttributeError`) is `Except.error ()`; a normal return is `Except.ok`.
* `int(s)` on a string is `pyInt?` (ASCII digits, optional sign,
  underscores strictly between digits, surrounding whitespace stripped —
  the cases exercised by this script).
* Python's `sorted` with a key function first computes every key in list
  order (each computation may raise) and then stable-sorts; any stable
  sort for the total preorder gives the same list, so we use
  `List.insertionSort`, whose stability is provable.
-/

namespace TracklistConv

instance exceptDecEq {ε α : Type} [DecidableEq ε] [DecidableEq α] :
    DecidableEq (Except ε α) := fun a b =>
  match a, b with
  | .ok x, .ok y =>
    if h : x = y then .isTrue (by rw [h]) else .isFalse (by intro c; cases c; exact h rfl)
  | .error x, .error y =>
    if h : x = y then .isTrue (by rw [h]) else .isFalse (by intro c; cases c; exact h rfl)
  | .ok _, .error _ => .isFalse (by intro c; cases c)
  | .error _, .ok _ => .isFalse (by intro c; cases c)

/-- Values stored in the script's per-track dictionaries: Python `None`,
`str` and `int` are the only shapes that occur. -/
inductive PyVal : Type where
  | vnone : PyVal
  | vstr : String → PyVal
  | vint : Int → PyVal
deriving DecidableEq, Repr

/-- A per-track Python dictionary (string keys, insertion ordered). -/
abbrev Track := List (String × PyVal)

/-- The tracklist dictionary: timestamp key (normally a string, but a short
CSV row can make it `None`) mapped to its track dictionary. -/
abbrev Tracklist := List (PyVal × Track)

/-- Python `d[k]` lookup on an association list (first binding wins; the
script never builds a dict with duplicate keys). -/
def dictFind? {κ ν : Type} [DecidableEq κ] : List (κ × ν) → κ → Option ν
  | [], _ => none
  | (k, v) :: rest, key => if k = key then some v else dictFind? rest key

/-- Python `d[k] = v`: replace the value in place when the key exists,
otherwise append the new binding (insertion order preserved). -/
def dictSet {κ ν : Type} [DecidableEq κ] : List (κ × ν) → κ → ν → List (κ × ν)
  | [], key, v => [(key, v)]
  | (k, w) :: rest, key, v =>
    if k = key then (k, v) :: rest else (k, w) :: dictSet rest key v

/-- Python `str(x)` / `"{}".format(x)` conversion for the values above. -/
def pyStr : PyVal → String
  | .vnone => "None"
  | .vstr s => s
  | .vint n => toString n

/-- Python truthiness of a value (`if data["label"]`). -/
def pyTruthy : PyVal → Bool
  | .vnone => false
  | .vstr s => !(s == "")
  | .vint n => !(n == 0)

/-- Python `s.split(sep)` for a single-character separator (the script only
splits on ":"): splitting the empty string gives `[""]`, and every
separator occurrence starts a new field. -/
def splitOnCharList (sep : Char) : List Char → List (List Char)
  | [] => [[]]
  | c :: rest =>
    if c = sep then [] :: splitOnCharList sep rest
    else
      match splitOnCharList sep rest with
      | r :: rs => (c :: r) :: rs
      | [] => [[c]]

/-- Python `timestamp.split(":")`. -/
def pySplitColon (s : String) : List String :=
  (splitOnCharList ':' s.toList).map String.mk

/-- Python `s.strip()` (whitespace on both ends; ASCII scope). -/
def trimWs (cs : List Char) : List Char :=
  ((cs.dropWhile Char.isWhitespace).reverse.dropWhile Char.isWhitespace).reverse

/-- Python `s.lower()` (ASCII scope). -/
def lowerStr (s : String) : String :=
  String.mk (s.toList.map Char.toLower)

/-- Checks that a character list is a run of ASCII digits with underscores
allowed only strictly between digits (Python's integer-literal grouping
rule for `int(s)`). -/
def pyDigitsOk : List Char → Bool
  | [] => false
  | [c] => c.isDigit
  | c :: c2 :: rest =>
    if c.isDigit then pyDigitsOk (c2 :: rest)
    else c == '_' && c2.isDigit && pyDigitsOk (c2 :: rest)

/-- Decimal value of a digit run (underscores already removed). -/
def pyDigitsVal (cs : List Char) : Nat :=
  cs.foldl (fun a c => a * 10 + (c.toNat - 48)) 0

/-- Python `int(s)` on a string: strip surrounding whitespace, optional
sign, then a digit run (ASCII scope). `none` models `ValueError`. -/
def pyInt? (s : String) : Option Int :=
  let cs := trimWs s.toList
  let body : Bool × List Char :=
    match cs with
    | '-' :: rest => (true, rest)
    | '+' :: rest => (false, rest)
    | _ => (false, cs)
  match body with
  | (neg, ds) =>
    match ds with
    | [] => none
    | c :: _ =>
      if c.isDigit && pyDigitsOk ds then
        let v : Int := Int.ofNat (pyDigitsVal (ds.filter (fun c2 => c2 != '_')))
        some (if neg then -v else v)
      else none

/-- Python `format(n, "02d")`: zero-pad to a total width of two, the sign
counting toward the width. -/
def fmt02d (n : Int) : String :=
  if n < 0 then "-" ++ toString n.natAbs
  else if n < 10 then "0" ++ toString n.natAbs
  else toString n.natAbs

/-- Embeds `timestamp_to_seconds` (the inner function of `sort_tracklist`,
lines 242-247): split on ":"; on exactly two parts run `int` on both (a
failed parse raises `ValueError`) and return `minutes*60 + seconds`;
otherwise return `0`. -/
def timestamp_to_seconds (timestamp : String) : Except Unit Int :=
  match pySplitColon timestamp with
  | [m, s] =>
    match pyInt? m, pyInt? s with
    | some mi, some si => .ok (mi * 60 + si)
    | _, _ => .error ()
  | _ => .ok 0

/-- The sort key applied to a raw dictionary key: a non-string key has no
`.split` method, so Python raises `AttributeError`. -/
def timestampKey : PyVal → Except Unit Int
  | .vstr s => timestamp_to_seconds s
  | _ => .error ()

/-- Embeds `timestamp_to_frames` (lines 181-187): `MM:SS` to `MM:SS:00`
with `02d` padding on both fields, `"00:00:00"` when the split does not
give two parts, `ValueError` when a part is not an integer. -/
def timestamp_to_frames (timestamp : String) : Except Unit String :=
  match pySplitColon timestamp with
  | [m, s] =>
    match pyInt? m, pyInt? s with
    | some mi, some si => .ok (fmt02d mi ++ ":" ++ fmt02d si ++ ":00")
    | _, _ => .error ()
  | _ => .ok "00:00:00"

/-- The output formats (`TracklistFormats`, lines 121-125). -/
inductive TracklistFormats : Type where
  | Default : TracklistFormats
  | Telegram : TracklistFormats
  | Lyrics : TracklistFormats
  | CUE : TracklistFormats
deriving DecidableEq, Repr

/-- The `value` of each format member (used in output file names). -/
def formatValue : TracklistFormats → String
  | .Default => "Main"
  | .Telegram => "Telegram"
  | .Lyrics => "Lyrics"
  | .CUE => "CUE"

/-- Embeds `generate_track` (lines 171-178). `no_labels` is the
`arguments.no_labels` flag the Python function reads globally. The
`"{artist} - "` prefix is added whenever the key `"artist"` is present
(any value, converted by `str`); `text += data["title"]` raises `KeyError`
when the key is absent and `TypeError` when the value is not a string;
the label suffix needs the key present, a truthy value and labels
enabled. -/
def generate_track (no_labels : Bool) (data : Track) : Except Unit String :=
  let t1 : String :=
    match dictFind? data "artist" with
    | some v => pyStr v ++ " - "
    | none => ""
  match dictFind? data "title" with
  | some (.vstr title) =>
    let t2 := t1 ++ title
    match dictFind? data "label" with
    | some v =>
      if pyTruthy v && !no_labels then .ok (t2 ++ " (" ++ pyStr v ++ ")")
      else .ok t2
    | none => .ok t2
  | some _ => .error ()
  | none => .error ()

/-- Embeds `generate_timestamp` (lines 189-213). The timestamp parameter
is the raw dictionary key (a `PyVal`): the three text formats interpolate
it with `str`, while the CUE branch calls `timestamp_to_frames`, which
needs `.split` and hence a string (`AttributeError` otherwise). The CUE
branch reads `track_num` with default `1`, formats it with `02d`
(a non-int raises), and does raw `data["title"]` / `data["artist"]`
lookups that raise `KeyError` when absent. -/
def generate_timestamp (no_labels : Bool) (timestamp : PyVal) (data : Track)
    (format : TracklistFormats) : Except Unit String :=
  match format with
  | .Telegram =>
    (generate_track no_labels data).map (fun tr => pyStr timestamp ++ " " ++ tr)
  | .Lyrics =>
    (generate_track no_labels data).map (fun tr => "[" ++ pyStr timestamp ++ ".00]" ++ tr)
  | .CUE =>
    let track_num := (dictFind? data "track_num").getD (.vint 1)
    match timestamp with
    | .vstr ts =>
      match timestamp_to_frames ts with
      | .error u => .error u
      | .ok frames =>
        match track_num with
        | .vint n =>
          match dictFind? data "title" with
          | some titleV =>
            match dictFind? data "artist" with
            | some artistV =>
              .ok ("  TRACK " ++ fmt02d n ++ " AUDIO\n    TITLE \"" ++ pyStr titleV
                ++ "\"\n    PERFORMER \"" ++ pyStr artistV ++ "\"\n    INDEX 01 " ++ frames)
            | none => .error ()
          | none => .error ()
        | _ => .error ()
    | _ => .error ()
  | .Default =>
    (generate_track no_labels data).map (fun tr => "[" ++ pyStr timestamp ++ "] " ++ tr)

/-- Embeds the `TracklistHeaders` mapping (lines 165-168): only Telegram
and CUE have an entry. -/
def TracklistHeaders : TracklistFormats → Option String
  | .Telegram => some "**TRACKLIST**"
  | .CUE => some "PERFORMER \"{performer}\"\nTITLE \"{title}\"\nFILE \"{file}\" {type}"
  | _ => none

/-- The CUE header template after `.format` substitution (lines 291-297);
`file` is `arguments.audio_file`, interpolated with `str` (so `None`
prints as `None`). -/
def cue_header (performer title : String) (file : PyVal) (audioType : String) : String :=
  "PERFORMER \"" ++ performer ++ "\"\nTITLE \"" ++ title ++ "\"\nFILE \""
    ++ pyStr file ++ "\" " ++ audioType

/-- Index of the last '.' in a character list, if any. -/
def lastDotIdx : List Char → Option Nat
  | [] => none
  | c :: rest =>
    match lastDotIdx rest with
    | some i => some (i + 1)
    | none => if c = '.' then some 0 else none

/-- Models `pathlib.PurePath.suffix` on the final path component: the text
from the last dot, unless that dot is the first or the last character. -/
def pySuffix (name : String) : String :=
  let cs := name.toList
  match lastDotIdx cs with
  | some i => if 0 < i ∧ i + 1 < cs.length then String.mk (cs.drop i) else ""
  | none => ""

/-- The two input formats (`InputFormats`, lines 114-116). -/
inductive InputFormats : Type where
  | YAML : InputFormats
  | CSV : InputFormats
deriving DecidableEq, Repr

/-- Embeds the format-selection expression of `parse_input_file`
(lines 217-219): YAML exactly when the lower-cased suffix is ".yaml",
anything else is read as CSV. `file_name` is the final path component. -/
def input_format_of (file_name : String) : InputFormats :=
  if lowerStr (pySuffix file_name) = ".yaml" then .YAML else .CSV

/-- One row dictionary built by `csv.DictReader`: header names zipped with
the row's fields; a row shorter than the header fills the missing values
with `restval = None`. Header names are assumed distinct (the script's
documented header is `timestamp,title,artist,label`). -/
def csvRow : List String → List String → Track
  | [], _ => []
  | h :: hs, [] => (h, PyVal.vnone) :: csvRow hs []
  | h :: hs, f :: fs => (h, PyVal.vstr f) :: csvRow hs fs

/-- Loop body of the CSV branch of `parse_input_file` (lines 229-238):
`row["timestamp"]` then the dict literal's `row["title"]`,
`row["artist"]`, `row["label"]` in order, each raising `KeyError` when the
column is absent; the entry is stored with `tracklist[timestamp] = ...`. -/
def parse_csv_go (header : List String) : List (List String) → Tracklist → Except Unit Tracklist
  | [], tl => .ok tl
  | fields :: rest, tl =>
    let row := csvRow header fields
    match dictFind? row "timestamp" with
    | none => .error ()
    | some ts =>
      match dictFind? row "title" with
      | none => .error ()
      | some titleV =>
        match dictFind? row "artist" with
        | none => .error ()
        | some artistV =>
          match dictFind? row "label" with
          | none => .error ()
          | some labelV =>
            parse_csv_go header rest
              (dictSet tl ts [("title", titleV), ("artist", artistV), ("label", labelV)])

/-- The CSV branch of `parse_input_file`, starting from the empty
`tracklist = {}`. -/
def parse_csv (header : List String) (rows : List (List String)) : Except Unit Tracklist :=
  parse_csv_go header rows []

/-- Ordering used by `sorted(..., key=timestamp_to_seconds)` once every
key has been computed: compare the precomputed integer keys. -/
def keyLe (a b : Int × (PyVal × Track)) : Prop := a.1 ≤ b.1

instance : DecidableRel keyLe := fun a b => inferInstanceAs (Decidable (a.1 ≤ b.1))

instance : IsTotal (Int × (PyVal × Track)) keyLe := ⟨fun a b => Int.le_total a.1 b.1⟩

instance : IsTrans (Int × (PyVal × Track)) keyLe := ⟨fun _ _ _ h1 h2 => le_trans h1 h2⟩

/-- Key computation pass of Python's `sorted(items, key=f)`: the key of
every item is computed in list order before any comparison, and the first
raising key aborts the sort. -/
def decorate : Tracklist → Except Unit (List (Int × (PyVal × Track)))
  | [] => .ok []
  | e :: rest =>
    match timestampKey e.1 with
    | .error u => .error u
    | .ok k =>
      match decorate rest with
      | .error u => .error u
      | .ok ds => .ok ((k, e) :: ds)

/-- Embeds `sort_tracklist` (lines 241-249): stable sort of the dict items
by `timestamp_to_seconds` of the key, rebuilt into a dict (which keeps the
sorted insertion order; the keys are already unique). -/
def sort_tracklist (tl : Tracklist) : Except Unit Tracklist :=
  (decorate tl).map (fun keyed => (keyed.insertionSort keyLe).map (fun x => x.2))

/-- The command-line arguments relevant to format selection
(lines 60-111). -/
structure Arguments : Type where
  format : List String
  main : Bool
  telegram : Bool
  lyrics : Bool
  cue : Bool
  audio_file : Option String
deriving DecidableEq, Repr

/-- Python falsiness of `arguments.audio_file` (`None` or the empty
string). -/
def audio_file_falsy : Option String → Bool
  | none => true
  | some s => s == ""

/-- Embeds the format-selection block (lines 96-111): the `--format`
occurrences, then the boolean shorthands in order; the `--cue` branch
first checks `arguments.audio_file` and `exit(1)`s (modelled as
`Except.error ()`) when it is falsy; an empty selection defaults to
`["Main"]`. -/
def selected_formats (a : Arguments) : Except Unit (List String) :=
  let fs := a.format
  let fs := if a.main then fs ++ ["Main"] else fs
  let fs := if a.telegram then fs ++ ["Telegram"] else fs
  let fs := if a.lyrics then fs ++ ["Lyrics"] else fs
  if a.cue then
    if audio_file_falsy a.audio_file then .error ()
    else
      let fs2 := fs ++ ["CUE"]
      .ok (if fs2.isEmpty then ["Main"] else fs2)
  else .ok (if fs.isEmpty then ["Main"] else fs)

/-- The CUE-only step of the per-track loop (lines 310-313):
`track_data = track_data.copy()` then `track_data["track_num"] = n`.
Returns the dictionary handed to the renderer and the dictionary that
remains in the shared tracklist: the assignment lands on the fresh copy,
so the original entry is returned unchanged. -/
def copy_with_track_num (track_data : Track) (n : Int) : Track × Track :=
  (dictSet track_data "track_num" (.vint n), track_data)

/-- The per-track loop of the output section (lines 304-320) for one
format: tracks are enumerated from 1; for CUE the copy-and-inject step
runs first; each rendered line is written followed by a newline. Returns
the written text and the tracklist as the loop leaves it. -/
def write_tracks (no_labels : Bool) (fmt : TracklistFormats) :
    Tracklist → Int → Except Unit (String × Tracklist)
  | [], _ => .ok ("", [])
  | (ts, td) :: rest, n =>
    match generate_timestamp no_labels ts
        (if fmt = .CUE then (copy_with_track_num td n).1 else td) fmt with
    | .error u => .error u
    | .ok line =>
      match write_tracks no_labels fmt rest (n + 1) with
      | .error u => .error u
      | .ok (out, kept) =>
        .ok (line ++ "\n" ++ out,
          (ts, if fmt = .CUE then (copy_with_track_num td n).2 else td) :: kept)

/-- One format pass of the output loop (lines 286-320): the header (when
the format defines one, CUE's after substitution) followed by a newline,
then the rendered tracks. `audioType` stands for
`arguments.audio_type or detect_audio_type(arguments.audio_file)`, whose
detector is not needed by any claim. -/
def render_format_output (no_labels : Bool) (mix_performer mix_title : String)
    (audio_file : Option String) (audioType : String)
    (fmt : TracklistFormats) (tl : Tracklist) : Except Unit String :=
  let headerPart : String :=
    match TracklistHeaders fmt with
    | some h =>
      (if fmt = .CUE then
        cue_header mix_performer mix_title
          (match audio_file with | some s => .vstr s | none => .vnone) audioType
      else h) ++ "\n"
    | none => ""
  (write_tracks no_labels fmt tl 1).map (fun p => headerPart ++ p.1)

/-- Boolean success test for an `Except` result. -/
def exceptOk {ε α : Type} : Except ε α → Bool
  | .ok _ => true
  | .error _ => false

/-- Spec-side constructor of a track record with a required title and
optional artist and label, all strings (the shapes named by the
`renderTrack` contract). -/
def mkTrack (title : String) (artist label : Option String) : Track :=
  (match artist with | some a => [("artist", PyVal.vstr a)] | none => []) ++
    [("title", PyVal.vstr title)] ++
    (match label with | some l => [("label", PyVal.vstr l)] | none => [])

/-- Integer sort key of a loaded entry, with 0 standing in for an
unparsable key (only used to state sortedness of successful sorts, where
every key parsed). -/
def secondsKey (e : PyVal × Track) : Int :=
  match timestampKey e.1 with
  | .ok k => k
  | .error _ => 0

/-- Boolean test that an entry's timestamp parses to exactly the seconds
value `k`. -/
def keyEqB (e : PyVal × Track) (k : Int) : Bool :=
  match timestampKey e.1 with
  | .ok k2 => k2 == k
  | .error _ => false

/-- The documented CSV header row. -/
def stdHeader : List String := ["timestamp", "title", "artist", "label"]

/-- Sample tracklist for instantiating the sorting theorems: "1:05" and
"01:05" are distinct keys with the same seconds value 65, so stability is
observable. -/
def sampleTracklist : Tracklist :=
  [(.vstr "1:05", [("title", .vstr "First")]),
   (.vstr "01:05", [("title", .vstr "Mid")]),
   (.vstr "0:30", [("title", .vstr "Late")])]

/-- The sorted form of `sampleTracklist`. -/
def sampleSorted : Tracklist :=
  [(.vstr "0:30", [("title", .vstr "Late")]),
   (.vstr "1:05", [("title", .vstr "First")]),
   (.vstr "01:05", [("title", .vstr "Mid")])]

/-- Sample single-entry tracklist for the CUE pass theorems. -/
def sampleCueTracklist : Tracklist :=
  [(.vstr "0:30", [("title", .vstr "S"), ("artist", .vstr "A")])]

theorem decorate_ok_of_keys :
    ∀ tl : Tracklist, (∀ e ∈ tl, exceptOk (timestampKey e.1) = true) →
      ∃ keyed, decorate tl = Except.ok keyed
  | [], _ => ⟨[], rfl⟩
  | e :: rest, h => by
    have hk := h e (List.mem_cons_self _ _)
    cases hke : timestampKey e.1 with
    | error u => rw [hke] at hk; simp [exceptOk] at hk
    | ok k =>
      obtain ⟨ds, hds⟩ :=
        decorate_ok_of_keys rest (fun x hx => h x (List.mem_cons_of_mem _ hx))
      exact ⟨(k, e) :: ds, by simp [decorate, hke, hds]⟩

theorem decorate_map :
    ∀ (tl : Tracklist) (keyed : List (Int × (PyVal × Track))),
      decorate tl = Except.ok keyed → keyed.map (fun x => x.2) = tl
  | [], keyed, h => by
    simp only [decorate, Except.ok.injEq] at h
    subst h; rfl
  | e :: rest, keyed, h => by
    cases hke : timestampKey e.1 with
    | error u => simp [decorate, hke] at h
    | ok k =>
      cases hds : decorate rest with
      | error u => simp [decorate, hke, hds] at h
      | ok ds =>
        simp only [decorate, hke, hds, Except.ok.injEq] at h
        subst h
        simp [decorate_map rest ds hds]

theorem decorate_mem_key :
    ∀ (tl : Tracklist) (keyed : List (Int × (PyVal × Track))),
      decorate tl = Except.ok keyed →
      ∀ x ∈ keyed, timestampKey x.2.1 = Except.ok x.1
  | [], keyed, h => by
    simp only [decorate, Except.ok.injEq] at h
    subst h; intro x hx; cases hx
  | e :: rest, keyed, h => by
    cases hke : timestampKey e.1 with
    | error u => simp [decorate, hke] at h
    | ok k =>
      cases hds : decorate rest with
      | error u => simp [decorate, hke, hds] at h
      | ok ds =>
        simp only [decorate, hke, hds, Except.ok.injEq] at h
        subst h
        intro x hx
        rcases List.mem_cons.mp hx with hx1 | hx2
        · subst hx1; exact hke
        · exact decorate_mem_key rest ds hds x hx2

theorem filter_orderedInsert_key (k : Int) (a : Int × (PyVal × Track)) :
    ∀ l : List (Int × (PyVal × Track)),
      (List.orderedInsert keyLe a l).filter (fun x => x.1 == k) =
        if a.1 == k then a :: l.filter (fun x => x.1 == k)
        else l.filter (fun x => x.1 == k)
  | [] => by
    by_cases hak : a.1 = k <;>
      simp [List.orderedInsert, List.filter_cons, hak, beq_iff_eq]
  | b :: t => by
    by_cases hab : keyLe a b
    · rw [List.orderedInsert, if_pos hab]
      by_cases hak : a.1 = k <;> simp [List.filter_cons, hak, beq_iff_eq]
    · rw [List.orderedInsert, if_neg hab]
      have hba : b.1 < a.1 := by
        have : ¬ a.1 ≤ b.1 := hab
        omega
      by_cases hak : a.1 = k
      · have hbk : ¬ b.1 = k := by omega
        simp [List.filter_cons, hak, hbk, beq_iff_eq, filter_orderedInsert_key k a t]
      · simp [List.filter_cons, hak, beq_iff_eq, filter_orderedInsert_key k a t]

theorem filter_insertionSort_key (k : Int) :
    ∀ l : List (Int × (PyVal × Track)),
      (List.insertionSort keyLe l).filter (fun x => x.1 == k) =
        l.filter (fun x => x.1 == k)
  | [] => rfl
  | a :: t => by
    rw [List.insertionSort, filter_orderedInsert_key k a _]
    by_cases hak : a.1 = k <;>
      simp [List.filter_cons, hak, beq_iff_eq, filter_insertionSort_key k t]

theorem write_tracks_kept (nl : Bool) (fmt : TracklistFormats) :
    ∀ (tl : Tracklist) (n : Int) (out : String) (kept : Tracklist),
      write_tracks nl fmt tl n = Except.ok (out, kept) → kept = tl
  | [], n, out, kept, h => by
    simp only [write_tracks, Except.ok.injEq, Prod.mk.injEq] at h
    exact h.2.symm
  | (ts, td) :: rest, n, out, kept, h => by
    rw [write_tracks] at h
    cases hg : generate_timestamp nl ts
        (if fmt = .CUE then (copy_with_track_num td n).1 else td) fmt with
    | error u => rw [hg] at h; cases h
    | ok line =>
      rw [hg] at h
      cases hw : write_tracks nl fmt rest (n + 1) with
      | error u => rw [hw] at h; cases h
      | ok p =>
        rcases p with ⟨out2, kept2⟩
        rw [hw] at h
        simp only [Except.ok.injEq, Prod.mk.injEq] at h
        have hk2 : kept2 = rest := write_tracks_kept nl fmt rest (n + 1) out2 kept2 hw
        have hcopy : (if fmt = .CUE then (copy_with_track_num td n).2 else td) = td := by
          by_cases hf : fmt = .CUE <;> simp [hf, copy_with_track_num]
        rw [← h.2, hcopy, hk2]

theorem parse_csv_go_ok :
    ∀ (rows : List (List String)) (tl : Tracklist),
      exceptOk (parse_csv_go stdHeader rows tl) = true
  | [], _ => rfl
  | fields :: rest, tl => by
    match fields with
    | [] => exact parse_csv_go_ok rest _
    | [a] => exact parse_csv_go_ok rest _
    | [a, b] => exact parse_csv_go_ok rest _
    | [a, b, c] => exact parse_csv_go_ok rest _
    | a :: b :: c :: d :: fs => exact parse_csv_go_ok rest _

/-- C2 counterexample: the claim says `timestamp_to_seconds` returns 0 on
every input that is not two integer parts, including "a:b"; on "a:b" the
code instead raises `ValueError` from `map(int, parts)`, so it neither is
total nor returns 0 there. -/
theorem claim_C2_counterexample :
    timestamp_to_seconds "a:b" = Except.error () ∧
      ¬ timestamp_to_seconds "a:b" = Except.ok 0 := by
  constructor
  · rfl
  · decide

/-- C2 amended: if splitting on ":" yields exactly two parts and both
parse as integers, `timestamp_to_seconds` returns minutes*60+seconds; if
the split does not yield exactly two parts it returns 0; but if it yields
two parts and either part fails integer parsing, it raises `ValueError`
instead of returning. -/
theorem claim_C2_amended :
    (∀ (t m s : String) (mi si : Int), pySplitColon t = [m, s] →
        pyInt? m = some mi → pyInt? s = some si →
        timestamp_to_seconds t = Except.ok (mi * 60 + si)) ∧
    (∀ t : String, (pySplitColon t).length ≠ 2 →
        timestamp_to_seconds t = Except.ok 0) ∧
    (∀ (t m s : String), pySplitColon t = [m, s] →
        (pyInt? m = none ∨ pyInt? s = none) →
        timestamp_to_seconds t = Except.error ()) := by
  refine ⟨?_, ?_, ?_⟩
  · intro t m s mi si hsplit hm hs
    simp [timestamp_to_seconds, hsplit, hm, hs]
  · intro t hlen
    rcases hsp : pySplitColon t with _ | ⟨a, _ | ⟨b, _ | ⟨c, rest⟩⟩⟩ <;>
      simp [hsp] at hlen ⊢ <;>
      simp [timestamp_to_seconds, hsp]
  · intro t m s hsplit hbad
    rcases hbad with hb | hb
    · cases hs : pyInt? s <;> simp [timestamp_to_seconds, hsplit, hb, hs]
    · cases hm : pyInt? m <;> simp [timestamp_to_seconds, hsplit, hb, hm]

/-- C2 witness: the amended theorem applied at "1:05" (two integer
parts), "abc" (not two parts) and "a:b" (two non-integer parts). -/
theorem claim_C2_witness :
    timestamp_to_seconds "1:05" = Except.ok (1 * 60 + 5) ∧
      timestamp_to_seconds "abc" = Except.ok 0 ∧
      timestamp_to_seconds "a:b" = Except.error () :=
  ⟨claim_C2_amended.1 "1:05" "1" "05" 1 5 (by decide) (by decide) (by decide),
   claim_C2_amended.2.1 "abc" (by decide),
   claim_C2_amended.2.2 "a:b" "a" "b" (by decide) (Or.inl (by decide))⟩

/-- C3 counterexample: requesting CUE through `--format CUE` with no
`--cue` flag and no audio file passes the selection block without any
diagnostic or failure exit — the audio-file guard only runs under the
`--cue` boolean flag. -/
theorem claim_C3_counterexample :
    selected_formats ⟨["CUE"], false, false, false, false, none⟩ =
      Except.ok ["CUE"] := rfl

/-- C3 amended: the diagnostic-and-exit happens exactly when the `--cue`
boolean flag is set while `--audio-file` is missing (or empty); selecting
CUE via `--format CUE` alone does not trigger the check and the selection
step succeeds with CUE among the formats. -/
theorem claim_C3_amended (a : Arguments) :
    selected_formats a = Except.error () ↔
      (a.cue = true ∧ audio_file_falsy a.audio_file = true) := by
  rcases a with ⟨fmt, mn, tg, ly, cu, af⟩
  cases cu <;> cases haf : audio_file_falsy af <;>
    simp [selected_formats, haf]

/-- C3 witness: the amended theorem applied to the configuration with the
`--cue` flag set and no audio file, which does exit with failure. -/
theorem claim_C3_witness :
    selected_formats ⟨[], false, false, false, true, none⟩ = Except.error () :=
  (claim_C3_amended ⟨[], false, false, false, true, none⟩).mpr ⟨rfl, rfl⟩

/-- C4 counterexample: a CSV whose header lacks the optional `artist`
column makes every row lookup `row["artist"]` raise `KeyError`, so the
loader fails instead of tolerating the missing column. -/
theorem claim_C4_counterexample :
    parse_csv ["timestamp", "title"] [["0:30", "Song"]] = Except.error () := rfl

/-- C4 amended: with the full documented header
`timestamp,title,artist,label`, rows shorter than the header are
tolerated — `DictReader` fills the missing cells with `None` and loading
never raises; but a header that omits the artist or label column makes
the loader raise `KeyError` (see the counterexample). -/
theorem claim_C4_amended :
    (∀ rows : List (List String), exceptOk (parse_csv stdHeader rows) = true) ∧
      parse_csv stdHeader [["0:30", "Song"]] =
        Except.ok [(.vstr "0:30",
          [("title", .vstr "Song"), ("artist", .vnone), ("label", .vnone)])] :=
  ⟨fun rows => parse_csv_go_ok rows [], rfl⟩

/-- C5 counterexample: an input named with extension ".yml" is read as
CSV, not YAML — the code compares the lower-cased suffix against ".yaml"
only. -/
theorem claim_C5_counterexample :
    input_format_of "Tracklist.yml" = InputFormats.CSV ∧
      ¬ input_format_of "Tracklist.yml" = InputFormats.YAML := by
  decide

/-- C5 amended: the loader selects the YAML parser exactly when the
lower-cased file extension is ".yaml"; every other extension — including
".yml" — is treated as CSV tabular text. -/
theorem claim_C5_amended (name : String) :
    (input_format_of name = InputFormats.YAML ↔
        lowerStr (pySuffix name) = ".yaml") ∧
      (lowerStr (pySuffix name) = ".yml" →
        input_format_of name = InputFormats.CSV) := by
  constructor
  · by_cases h : lowerStr (pySuffix name) = ".yaml" <;> simp [input_format_of, h]
  · intro h2
    simp [input_format_of, h2]

/-- C5 witness: the amended theorem applied to the file name "a.yml". -/
theorem claim_C5_witness : input_format_of "a.yml" = InputFormats.CSV :=
  (claim_C5_amended "a.yml").2 (by decide)

/-- C6 counterexample: a track record with no artist key does not render
a `PERFORMER ""` line — the raw `data["artist"]` lookup raises `KeyError`
and CUE rendering fails. -/
theorem claim_C6_counterexample :
    generate_timestamp false (.vstr "01:30")
        [("title", .vstr "T"), ("track_num", .vint 3)] .CUE =
      Except.error () := rfl

/-- C6 amended: an artist field present with the empty string renders as
an empty quoted string in the PERFORMER line; an absent artist key makes
CUE rendering raise `KeyError` instead of rendering. -/
theorem claim_C6_amended :
    (∀ (nl : Bool) (data : Track) (ts frames : String) (titleV : PyVal) (n : Int),
        dictFind? data "artist" = some (.vstr "") →
        dictFind? data "title" = some titleV →
        dictFind? data "track_num" = some (.vint n) →
        timestamp_to_frames ts = Except.ok frames →
        generate_timestamp nl (.vstr ts) data .CUE =
          Except.ok ("  TRACK " ++ fmt02d n ++ " AUDIO\n    TITLE \"" ++ pyStr titleV
            ++ "\"\n    PERFORMER \"" ++ "" ++ "\"\n    INDEX 01 " ++ frames)) ∧
    (∀ (nl : Bool) (data : Track) (ts frames : String) (titleV : PyVal) (n : Int),
        dictFind? data "artist" = none →
        dictFind? data "title" = some titleV →
        dictFind? data "track_num" = some (.vint n) →
        timestamp_to_frames ts = Except.ok frames →
        generate_timestamp nl (.vstr ts) data .CUE = Except.error ()) := by
  constructor
  · intro nl data ts frames titleV n ha ht hn hf
    simp [generate_timestamp, ha, ht, hn, hf, pyStr]
  · intro nl data ts frames titleV n ha ht hn hf
    simp [generate_timestamp, ha, ht, hn, hf]

/-- C6 witness: both parts of the amended theorem at concrete records —
an empty-string artist renders `PERFORMER ""`, an absent artist fails. -/
theorem claim_C6_witness :
    generate_timestamp false (.vstr "0:30")
        [("artist", .vstr ""), ("title", .vstr "T"), ("track_num", .vint 2)] .CUE =
      Except.ok "  TRACK 02 AUDIO\n    TITLE \"T\"\n    PERFORMER \"\"\n    INDEX 01 00:30:00" ∧
    generate_timestamp true (.vstr "0:30")
        [("title", .vstr "T"), ("track_num", .vint 2)] .CUE = Except.error () :=
  ⟨(claim_C6_amended.1 false
      [("artist", .vstr ""), ("title", .vstr "T"), ("track_num", .vint 2)]
      "0:30" "00:30:00" (.vstr "T") 2 rfl rfl rfl rfl).trans rfl,
   claim_C6_amended.2 true [("title", .vstr "T"), ("track_num", .vint 2)]
      "0:30" "00:30:00" (.vstr "T") 2 rfl rfl rfl rfl⟩

/-- C7: for a record with string title and artist, an integer track_num
and a timestamp accepted by `timestamp_to_frames`, the CUE rendering is
the exact four-line block with two-space indentation on the TRACK line,
four-space indentation on the inner lines, double quotes around title and
artist, and the track number zero-padded to two digits. -/
theorem claim_C7_cue_block (nl : Bool) (data : Track)
    (ts frames title artist : String) (n : Int)
    (ht : dictFind? data "title" = some (.vstr title))
    (ha : dictFind? data "artist" = some (.vstr artist))
    (hn : dictFind? data "track_num" = some (.vint n))
    (hf : timestamp_to_frames ts = Except.ok frames) :
    generate_timestamp nl (.vstr ts) data .CUE =
      Except.ok ("  TRACK " ++ fmt02d n ++ " AUDIO\n    TITLE \"" ++ title
        ++ "\"\n    PERFORMER \"" ++ artist ++ "\"\n    INDEX 01 " ++ frames) := by
  simp [generate_timestamp, ht, ha, hn, hf, pyStr]

/-- C7 witness: the spec's example — track_num=3, timestamp "01:30",
title "T", artist "A" — yields exactly the four-line block of the spec. -/
theorem claim_C7_witness :
    generate_timestamp false (.vstr "01:30")
        [("title", .vstr "T"), ("artist", .vstr "A"), ("track_num", .vint 3)] .CUE =
      Except.ok "  TRACK 03 AUDIO\n    TITLE \"T\"\n    PERFORMER \"A\"\n    INDEX 01 01:30:00" :=
  (claim_C7_cue_block false
      [("title", .vstr "T"), ("artist", .vstr "A"), ("track_num", .vint 3)]
      "01:30" "01:30:00" "T" "A" 3 rfl rfl rfl rfl).trans rfl

/-- C8: `generate_track` produces the "{artist} - " prefix exactly when
the artist field is present, then the title, then the " ({label})" suffix
exactly when the label is present, non-empty and labels are enabled. -/
theorem claim_C8_render_track (noLabels : Bool) (title : String)
    (artist label : Option String) :
    generate_track noLabels (mkTrack title artist label) =
      Except.ok ((match artist with | some a => a ++ " - " | none => "") ++ title ++
        (match label with
         | some l => if l ≠ "" ∧ noLabels = false then " (" ++ l ++ ")" else ""
         | none => "")) := by
  rcases artist with _ | a <;> rcases label with _ | l
  · cases noLabels <;>
      simp [generate_track, mkTrack, dictFind?, pyStr, String.append_empty,
        String.empty_append]
  · cases noLabels <;> by_cases hl : l = "" <;>
      simp [generate_track, mkTrack, dictFind?, pyStr, pyTruthy, hl,
        String.append_empty, String.empty_append, String.append_assoc]
  · cases noLabels <;>
      simp [generate_track, mkTrack, dictFind?, pyStr, String.append_empty,
        String.empty_append]
  · cases noLabels <;> by_cases hl : l = "" <;>
      simp [generate_track, mkTrack, dictFind?, pyStr, pyTruthy, hl,
        String.append_empty, String.empty_append, String.append_assoc]

/-- C9: the CUE pass copies each record before injecting track_num: the
tracklist the loop leaves behind is exactly the input tracklist (no
track_num persists), so any later format pass over it renders the same
output as over the original. -/
theorem claim_C9_no_mutation (nl : Bool) (tl : Tracklist) (n : Int)
    (out : String) (kept : Tracklist)
    (h : write_tracks nl .CUE tl n = Except.ok (out, kept)) :
    kept = tl ∧
      ∀ (fmt2 : TracklistFormats) (m : Int),
        write_tracks nl fmt2 kept m = write_tracks nl fmt2 tl m := by
  have hk : kept = tl := write_tracks_kept nl .CUE tl n out kept h
  exact ⟨hk, fun fmt2 m => by rw [hk]⟩

/-- C9 witness: the theorem applied to a concrete one-entry tracklist and
its computed CUE pass. -/
theorem claim_C9_witness :
    sampleCueTracklist = sampleCueTracklist ∧
      write_tracks false .Default sampleCueTracklist 1 =
        write_tracks false .Default sampleCueTracklist 1 :=
  ⟨(claim_C9_no_mutation false sampleCueTracklist 1
      "  TRACK 01 AUDIO\n    TITLE \"S\"\n    PERFORMER \"A\"\n    INDEX 01 00:30:00\n"
      sampleCueTracklist rfl).1,
   (claim_C9_no_mutation false sampleCueTracklist 1
      "  TRACK 01 AUDIO\n    TITLE \"S\"\n    PERFORMER \"A\"\n    INDEX 01 00:30:00\n"
      sampleCueTracklist rfl).2 .Default 1⟩

/-- C10: only Telegram and CUE define a header; a Telegram pass's output
is the literal header line "**TRACKLIST**" and a newline followed by the
track lines, while Main (Default) and Lyrics passes output the track
lines alone, with no header. -/
theorem claim_C10_headers :
    (∀ fmt : TracklistFormats,
        (TracklistHeaders fmt).isSome = true ↔
          (fmt = TracklistFormats.Telegram ∨ fmt = TracklistFormats.CUE)) ∧
    (∀ (nl : Bool) (mp mt : String) (af : Option String) (aty : String) (tl : Tracklist),
        render_format_output nl mp mt af aty .Telegram tl =
          (write_tracks nl .Telegram tl 1).map
            (fun p => "**TRACKLIST**" ++ "\n" ++ p.1)) ∧
    (∀ (nl : Bool) (mp mt : String) (af : Option String) (aty : String) (tl : Tracklist),
        render_format_output nl mp mt af aty .Default tl =
          (write_tracks nl .Default tl 1).map (fun p => p.1)) ∧
    (∀ (nl : Bool) (mp mt : String) (af : Option String) (aty : String) (tl : Tracklist),
        render_format_output nl mp mt af aty .Lyrics tl =
          (write_tracks nl .Lyrics tl 1).map (fun p => p.1)) := by
  refine ⟨?_, ?_, ?_, ?_⟩
  · intro fmt; cases fmt <;> simp [TracklistHeaders]
  · intro nl mp mt af aty tl
    simp [render_format_output, TracklistHeaders]
  · intro nl mp mt af aty tl
    simp [render_format_output, TracklistHeaders, String.empty_append]
  · intro nl mp mt af aty tl
    simp [render_format_output, TracklistHeaders, String.empty_append]

/-- C1 counterexample: loading entries with timestamps
["1:05", "0:30", "1:05"] collapses the two "1:05" entries (the tracklist
is a dict keyed by timestamp, so the later row overwrites the earlier
one), and sorting then yields only two entries — not the claimed three
with both "1:05" entries preserved. -/
theorem claim_C1_counterexample :
    (parse_csv stdHeader
        [["1:05", "First", "", ""], ["0:30", "Second", "", ""],
         ["1:05", "Third", "", ""]] >>= sort_tracklist) =
      Except.ok
        [(.vstr "0:30",
           [("title", .vstr "Second"), ("artist", .vstr ""), ("label", .vstr "")]),
         (.vstr "1:05",
           [("title", .vstr "Third"), ("artist", .vstr ""), ("label", .vstr "")])] ∧
    (parse_csv stdHeader
        [["1:05", "First", "", ""], ["0:30", "Second", "", ""],
         ["1:05", "Third", "", ""]] >>= sort_tracklist).map List.length =
      Except.ok 2 := ⟨rfl, rfl⟩

/-- C1 amended: loading collapses duplicate timestamps (the later entry's
fields overwrite the earlier entry's at its original position), and
sorting the loaded entries is total whenever every timestamp key parses;
a successful sort is a permutation of the loaded entries, ordered
ascending by the numeric seconds of the timestamps, and stable: for every
seconds value, the entries carrying it appear in their original relative
input order. -/
theorem claim_C1_sort (tl : Tracklist) :
    ((∀ e ∈ tl, exceptOk (timestampKey e.1) = true) →
        exceptOk (sort_tracklist tl) = true) ∧
    (∀ out : Tracklist, sort_tracklist tl = Except.ok out →
        out.Perm tl ∧
        out.Pairwise (fun e1 e2 => secondsKey e1 ≤ secondsKey e2) ∧
        ∀ k : Int, out.filter (fun e => keyEqB e k) =
          tl.filter (fun e => keyEqB e k)) := by
  constructor
  · intro h
    obtain ⟨keyed, hk⟩ := decorate_ok_of_keys tl h
    simp [sort_tracklist, hk, exceptOk, Except.map]
  · intro out hout
    cases hdec : decorate tl with
    | error u => simp [sort_tracklist, hdec, Except.map] at hout
    | ok keyed =>
      rw [sort_tracklist, hdec] at hout
      simp only [Except.map, Except.ok.injEq] at hout
      have hmapkeyed : keyed.map (fun x => x.2) = tl := decorate_map tl keyed hdec
      have hmemkey : ∀ x ∈ keyed, timestampKey x.2.1 = Except.ok x.1 :=
        decorate_mem_key tl keyed hdec
      have hmemsorted : ∀ x ∈ keyed.insertionSort keyLe,
          timestampKey x.2.1 = Except.ok x.1 :=
        fun x hx => hmemkey x ((List.mem_insertionSort keyLe).mp hx)
      refine ⟨?_, ?_, ?_⟩
      · rw [← hout, ← hmapkeyed]
        exact (List.perm_insertionSort keyLe keyed).map (fun x => x.2)
      · have hsorted : List.Pairwise keyLe (keyed.insertionSort keyLe) :=
          List.sorted_insertionSort keyLe keyed
        have hsec : List.Pairwise
            (fun a b => secondsKey a.2 ≤ secondsKey b.2)
            (keyed.insertionSort keyLe) := by
          refine hsorted.imp_of_mem ?_
          intro a b ha hb hab
          have hsa : secondsKey a.2 = a.1 := by
            simp [secondsKey, hmemsorted a ha]
          have hsb : secondsKey b.2 = b.1 := by
            simp [secondsKey, hmemsorted b hb]
          rw [hsa, hsb]
          exact hab
        rw [← hout]
        exact List.pairwise_map.mpr hsec
      · intro k
        have hcongr1 : (keyed.insertionSort keyLe).filter
              (fun x => keyEqB x.2 k) =
            (keyed.insertionSort keyLe).filter (fun x => x.1 == k) := by
          refine List.filter_congr ?_
          intro x hx
          simp [keyEqB, hmemsorted x hx]
        have hcongr2 : keyed.filter (fun x => keyEqB x.2 k) =
            keyed.filter (fun x => x.1 == k) := by
          refine List.filter_congr ?_
          intro x hx
          simp [keyEqB, hmemkey x hx]
        calc out.filter (fun e => keyEqB e k)
            = ((keyed.insertionSort keyLe).map (fun x => x.2)).filter
                (fun e => keyEqB e k) := by rw [hout]
          _ = ((keyed.insertionSort keyLe).filter
                (fun x => keyEqB x.2 k)).map (fun x => x.2) := by
              rw [List.filter_map]; rfl
          _ = ((keyed.insertionSort keyLe).filter
                (fun x => x.1 == k)).map (fun x => x.2) := by rw [hcongr1]
          _ = (keyed.filter (fun x => x.1 == k)).map (fun x => x.2) := by
              rw [filter_insertionSort_key k keyed]
          _ = (keyed.filter (fun x => keyEqB x.2 k)).map (fun x => x.2) := by
              rw [hcongr2]
          _ = (keyed.map (fun x => x.2)).filter (fun e => keyEqB e k) := by
              rw [List.filter_map]; rfl
          _ = tl.filter (fun e => keyEqB e k) := by rw [hmapkeyed]

/-- C1 witness: the sorting theorem applied to a concrete tracklist whose
keys all parse, including two distinct timestamps with the same seconds
value (65), certifying success, the permutation property and the stable
order of the 65-second entries. -/
theorem claim_C1_witness :
    exceptOk (sort_tracklist sampleTracklist) = true ∧
      sampleSorted.Perm sampleTracklist ∧
      sampleSorted.filter (fun e => keyEqB e 65) =
        sampleTracklist.filter (fun e => keyEqB e 65) :=
  ⟨(claim_C1_sort sampleTracklist).1 (by decide),
   ((claim_C1_sort sampleTracklist).2 sampleSorted rfl).1,
   ((claim_C1_sort sampleTracklist).2 sampleSorted rfl).2.2 65⟩

end TracklistConv
